import Mathlib

/-!
Verification of the park/tourist pipeline of the smtools repository.

The repository keeps several draft revisions of the same `park` package in
one file, separated by draft markers.  We embed each cited revision in its
own namespace:

* `ParkA` — the first revision of `src/common/sources/park/park.go`
  (lines 1-207) together with the first revision of
  `src/common/sources/park/options.go` (lines 1-70, the `ParkOptions`
  builder).
* `ParkB` — the second revision of `park.go` (lines 208-583): the revision
  with `MaxChannels`, `ErrLimited`, `With*` option functions, a `Cancel`
  that aborts, and a `Reset` that rejects the closed state.
* `ParkC` — the third revision of `park.go` (lines 584-886): the revision
  with `Tour.uid`, the stage-executor goroutine in `Park.start`
  (lines 822-857) and the lane dispatcher `Park.newChannel`
  (lines 859-886).
* `ParkD` — the second revision of `options.go` (lines 71-491), whose
  option functions return `ErrArg` instead of `ErrLimited`.
* `fmap` — the function registry of `src/unnamed/part_003`.

Go conventions used throughout the embedding: a Go `error` result becomes
`Option Err` (`none` is the nil error); a method that mutates its receiver
becomes a function returning the updated record; machine integers become
`Int` (no claim below depends on 32-bit wrap-around, and every concrete
value involved is tiny); channels and goroutines are made explicit as
lists and schedules where a claim needs them.
-/

/-- Go error values. `Err.new s` models `errors.New(s)`; `Err.wrap s e`
models `errors.Wrap`/`errors.WithMessagef` annotating an inner error. -/
inductive Err where
  | new (s : String)
  | wrap (s : String) (e : Err)
deriving DecidableEq, Repr

/-- `ErrLimited` of park.go line 226: `stderrors.New("Exceeds limit!")`. -/
def ErrLimited : Err := Err.new "Exceeds limit!"

/-- `ErrState` of park.go line 227: `stderrors.New("Invalid state!")`. -/
def ErrState : Err := Err.new "Invalid state!"

/-- `ErrNotReady` of park.go line 228. -/
def ErrNotReady : Err := Err.new "Not ready!"

/-- `ErrArg` of options.go line 91: `stderrors.New("invalid argument")`. -/
def ErrArg : Err := Err.new "invalid argument"

/-- Park status, park.go lines 344-350 (identical in every revision,
`iota + 1` so `ParkInitial` is 1). -/
inductive Status where
  | ParkInitial
  | ParkOpen
  | ParkPaused
  | ParkClosed
  | ParkAborted
deriving DecidableEq, Repr

/-- The numeric value of a `Status` (Go `iota + 1`), used by `%d`
formatting in error messages. -/
def statusCode : Status → Int
  | Status.ParkInitial => 1
  | Status.ParkOpen => 2
  | Status.ParkPaused => 3
  | Status.ParkClosed => 4
  | Status.ParkAborted => 5

/-- `MaxChannels` of park.go line 220 / options.go line 84. -/
def MaxChannels : Int := 256

/-- `MaxFunctions` of park.go line 221 / options.go line 85. -/
def MaxFunctions : Nat := 64

/-- `MaxListeners` of park.go line 222 / options.go line 86. -/
def MaxListeners : Nat := 256

namespace ParkA

/-- Stage function of the first revision:
`func(ctx *Context[T], t *Tour[T]) (err error)` (options.go line 7).
The only field of `Context` the executors fill in is `channelId`,
modelled as the `Nat` argument; the tour payload is the ticket value. -/
def StageFn (T : Type) : Type := Nat → T → Option Err

/-- Listener of the first revision:
`func(t *Tour[T], finished int, total int)` (options.go line 8).  Pure
model of a callback whose only observable effect is external. -/
def ListenerFn (T : Type) : Type := T → Int → Int → Unit

/-- `ParkOptions` of options.go lines 4-9 (first revision). -/
structure ParkOptions (T : Type) where
  concurrency : Int
  timeoutMinutes : Int
  channelTemplate : List (StageFn T)
  listeners : List (ListenerFn T)

/-- `WithConcurrency` of options.go lines 31-35: sets the field with no
validation and cannot fail (a `ParkOption` returns nothing). -/
def WithConcurrency {T : Type} (v : Int) (opts : ParkOptions T) : ParkOptions T :=
  { opts with concurrency := v }

/-- `Park` of park.go lines 10-15 (first revision). -/
structure Park (T : Type) where
  options : ParkOptions T
  status : Status
  total : Int
  finished : Int

/-- `Park.SetOptions` of park.go lines 99-105 (first revision): rejects
with `errors.New("Invalid State!")` unless the status is initial,
otherwise stores the options. -/
def SetOptions {T : Type} (t : Park T) (options : ParkOptions T) :
    Park T × Option Err :=
  if t.status ≠ Status.ParkInitial then
    (t, some (Err.new "Invalid State!"))
  else
    ({ t with options := options }, none)

/-- `Park.Cancel` of park.go lines 111-113 (first revision): the body is
only `return nil` — no field of the receiver is touched. -/
def Cancel {T : Type} (t : Park T) : Park T × Option Err :=
  (t, none)

/-- `Park.Start` of park.go lines 136-142 (first revision).  The body
spawns `concurrency` channel goroutines (`newChannel(i, data)` for
`i = 0 .. concurrency-1`, modelled as the returned list of channel ids),
sleeps three seconds, and returns nil.  It neither reads nor writes
`t.status`, so the state component is returned unchanged. -/
def Start {T : Type} (t : Park T) (data : List T) :
    Park T × List Nat × Option Err :=
  (t, List.range t.options.concurrency.toNat, none)

end ParkA

namespace ParkB

/-- `TourEvent` of park.go line 232 (second revision): an empty struct. -/
inductive TourEvent (T : Type) where
  | mk

/-- `ParkConf` of park.go lines 260-264 (second revision). -/
structure ParkConf (T : Type) where
  numChans : Int
  funcs : List (T → Option Err)
  listeners : List (TourEvent T → Unit)

/-- An option function `Optf` (park.go line 267) mutates the
configuration and may fail; modelled as the updated configuration paired
with the returned error. -/
def Optf (T : Type) : Type := ParkConf T → ParkConf T × Option Err

/-- `WithNumChannels` of park.go lines 288-296: rejects with
`ErrLimited` when `v > MaxChannels || v < 0`, otherwise stores `v`. -/
def WithNumChannels {T : Type} (v : Int) : Optf T := fun conf =>
  if MaxChannels < v ∨ v < 0 then
    (conf, some ErrLimited)
  else
    ({ conf with numChans := v }, none)

/-- `WithFuncs` of park.go lines 299-307: rejects with `ErrLimited` when
the list is longer than `MaxFunctions`, otherwise stores it. -/
def WithFuncs {T : Type} (t : List (T → Option Err)) : Optf T := fun conf =>
  if MaxFunctions < t.length then
    (conf, some ErrLimited)
  else
    ({ conf with funcs := t }, none)

/-- `WithListeners` of park.go lines 310-318: rejects with `ErrLimited`
when the list is longer than `MaxListeners`, otherwise stores it. -/
def WithListeners {T : Type} (ls : List (TourEvent T → Unit)) : Optf T := fun conf =>
  if MaxListeners < ls.length then
    (conf, some ErrLimited)
  else
    ({ conf with listeners := ls }, none)

/-- `Park` of park.go lines 328-339 (second revision).  The channel
fields (`dc`, `sc`, `fc`, `rec`, `tec`) are runtime wiring and are not
part of the control state; the counters and configuration are kept. -/
structure Park (T : Type) where
  conf : ParkConf T
  status : Status
  total : Int
  succeeds : Int
  failures : Int

/-- `Park.SetConf` of park.go lines 433-440: rejects with
`errors.WithMessagef(ErrState, "desired is Initial, actual : %d", t.status)`
unless the status is initial, otherwise stores the configuration. -/
def SetConf {T : Type} (t : Park T) (options : ParkConf T) :
    Park T × Option Err :=
  if t.status ≠ Status.ParkInitial then
    (t, some (Err.wrap ("desired is Initial, actual : " ++
      toString (statusCode t.status)) ErrState))
  else
    ({ t with conf := options }, none)

/-- `Park.Cancel` of park.go lines 448-451 (second revision): sets the
status to aborted and returns nil. -/
def Cancel {T : Type} (t : Park T) : Park T × Option Err :=
  ({ t with status := Status.ParkAborted }, none)

/-- `Park.Reset` of park.go lines 459-474 (second revision): cancels
first from paused/open; fails with a wrapped `ErrState` from the closed
state; otherwise clears `total` to -1 and `succeeds` to 0 and returns to
the initial status. -/
def Reset {T : Type} (t : Park T) : Park T × Option Err :=
  if t.status = Status.ParkPaused ∨ t.status = Status.ParkOpen then
    match Cancel t with
    | (t1, some e) => (t1, some (Err.wrap "cancel" e))
    | (t1, none) =>
        ({ t1 with status := Status.ParkInitial, total := -1, succeeds := 0 },
          none)
  else if t.status = Status.ParkClosed then
    (t, some (Err.wrap "can not reset park when it's closed" ErrState))
  else
    ({ t with status := Status.ParkInitial, total := -1, succeeds := 0 },
      none)

end ParkB

namespace ParkD

/-- `TourEvent` of options.go line 98 (second revision of options.go):
an empty struct. -/
inductive TourEvent (T : Type) where
  | mk

/-- `Conf` of options.go lines 126-130 (second revision of options.go). -/
structure Conf (T : Type) where
  numChans : Int
  funcs : List (T → Option Err)
  listeners : List (TourEvent T → Unit)

/-- An option function `Optf` (options.go line 133). -/
def Optf (T : Type) : Type := Conf T → Conf T × Option Err

/-- `WithNumChannels` of options.go lines 154-162: rejects with `ErrArg`
when `v > MaxChannels || v < 0`, otherwise stores `v`. -/
def WithNumChannels {T : Type} (v : Int) : Optf T := fun conf =>
  if MaxChannels < v ∨ v < 0 then
    (conf, some ErrArg)
  else
    ({ conf with numChans := v }, none)

/-- `WithFuncs` of options.go lines 165-173: rejects with `ErrArg` when
the list is longer than `MaxFunctions`. -/
def WithFuncs {T : Type} (t : List (T → Option Err)) : Optf T := fun conf =>
  if MaxFunctions < t.length then
    (conf, some ErrArg)
  else
    ({ conf with funcs := t }, none)

/-- `WithListeners` of options.go lines 176-184: rejects with `ErrArg`
when the list is longer than `MaxListeners`. -/
def WithListeners {T : Type} (ls : List (TourEvent T → Unit)) : Optf T := fun conf =>
  if MaxListeners < ls.length then
    (conf, some ErrArg)
  else
    ({ conf with listeners := ls }, none)

end ParkD

namespace ParkC

/-- `Event` of park.go line 606 (third revision): an empty struct. -/
inductive Event (T : Type) where
  | mk

/-- `ParkConf` of park.go lines 609-613 (third revision). -/
structure ParkConf (T : Type) where
  channels : Int
  funcs : List (T → Option Err)
  listeners : List (Event T → Unit)

/-- `Tour` of park.go lines 698-702 (third revision): a unique id, the
accumulated error (`err *error`, nil until a stage fails), and the
payload. -/
structure Tour (T : Type) where
  uid : Int
  err : Option Err
  t : T
deriving DecidableEq, Repr

/-- Modelled from the spec: `Tour.HasError` is called at park.go line 835
but its definition is not under `src/`.  Per the spec sentence "if the
item already carries an error, skip invocation and forward directly" and
the `err *error` field of `Tour`, it tests whether the error field is
set. -/
def HasError {T : Type} (v : Tour T) : Bool := v.err.isSome

/-- Modelled from the spec: `Tour.AddError` is called at park.go line 841
but its definition is not under `src/`.  Per the spec sentence "On error,
attach the error to the item" it stores the error in the `err` field. -/
def AddError {T : Type} (v : Tour T) (e : Err) : Tour T :=
  { v with err := some e }

/-- Stage function of the third revision:
`func(*Context[T], *Tour[T]) error` (park.go line 822).  The only field
of `Context` filled in by the executor is `channelId` (the `Nat`
argument).  The Go function receives the tour by pointer and may mutate
it, so the model returns the possibly-updated tour together with the
returned error. -/
def StageFn (T : Type) : Type := Nat → Tour T → Tour T × Option Err

/-- `Park` of park.go lines 677-684 (third revision). The `ongoing` map
is modelled as an association list. -/
structure Park (T : Type) where
  conf : ParkConf T
  status : Status
  total : Int
  finished : Int
  luid : Int
  ongoing : List (Int × Tour T)

/-- `Park.SetConf` of park.go lines 770-776 (third revision). -/
def SetConf {T : Type} (t : Park T) (options : ParkConf T) :
    Park T × Option Err :=
  if t.status ≠ Status.ParkInitial then
    (t, some (Err.new "Invalid State!"))
  else
    ({ t with conf := options }, none)

/-- `Park.Cancel` of park.go lines 782-784 (third revision): the body is
only `return nil`. -/
def Cancel {T : Type} (t : Park T) : Park T × Option Err :=
  (t, none)

/-- `Park.Reset` of park.go lines 790-803 (third revision): cancels
first from paused/open (a no-op in this revision), then unconditionally
returns to the initial status with `total = -1`, `finished = 0`,
`luid = 0` and a fresh empty `ongoing` map. -/
def Reset {T : Type} (t : Park T) : Park T × Option Err :=
  if t.status = Status.ParkPaused ∨ t.status = Status.ParkOpen then
    match Cancel t with
    | (t1, some e) => (t1, some (Err.wrap "cancel" e))
    | (t1, none) =>
        ({ t1 with
            status := Status.ParkInitial
            total := -1
            finished := 0
            luid := 0
            ongoing := [] }, none)
  else
    ({ t with
        status := Status.ParkInitial
        total := -1
        finished := 0
        luid := 0
        ongoing := [] }, none)

/-- One pass of the item branch of the stage-executor goroutine of
`Park.start`, park.go lines 834-852: if the tour does not already carry
an error, invoke the stage function and attach any returned error; then,
when `id >= l` (where `id` is the CHANNEL id passed to `start` at lines
865-867 and `l = len(funcs) - 1`, line 827), increment the aggregate
`finished` counter and notify every listener.  The returned boolean
records whether that increment-and-notify branch ran. -/
def stageBody {T : Type} (id : Nat) (l : Int) (f : StageFn T) (v : Tour T) :
    Tour T × Bool :=
  let v1 :=
    if HasError v then v
    else
      let fr := f id v
      match fr.2 with
      | none => fr.1
      | some e => AddError fr.1 e
  (v1, decide (l ≤ (id : Int)))

/-- An item flowing through the stage chain of one lane.  Each executor
forwards to the next executor via `next <- v` (park.go lines 850-852),
so a single item traverses the stage functions sequentially; the second
component counts how many times `finished` was incremented for this item
(each increment also notifies the listeners once, lines 844-849). -/
def laneRunAux {T : Type} (id : Nat) (l : Int) :
    List (StageFn T) → Tour T → Tour T × Nat
  | [], v => (v, 0)
  | f :: fs, v =>
      let r1 := stageBody id l f v
      let r2 := laneRunAux id l fs r1.1
      (r2.1, (if r1.2 then 1 else 0) + r2.2)

/-- A whole lane with channel id `id`: `l` is computed as
`len(funcs) - 1` exactly as at park.go line 827. -/
def laneRun {T : Type} (id : Nat) (funcs : List (StageFn T)) (v : Tour T) :
    Tour T × Nat :=
  laneRunAux id ((funcs.length : Int) - 1) funcs v

/-- Which branch of the `select` at park.go lines 831-853 fires.  Go
chooses uniformly among the ready cases, so when the quit channel is
closed and the queue holds items either branch may fire; a schedule is a
list of such choices. -/
inductive Choice where
  | quit
  | item
deriving DecidableEq, Repr

/-- State of one stage-executor goroutine (one `uow`, park.go lines
817-820): its buffered inbound `queue`, whether its `quit` channel has
been closed by the lane dispatcher (park.go lines 874-878), the items it
has sent to `next`, the number of `finished` increments it performed,
and whether the goroutine has returned. -/
structure ExecState (T : Type) where
  queue : List (Tour T)
  quitClosed : Bool
  forwarded : List (Tour T)
  finished : Nat
  stopped : Bool
deriving DecidableEq, Repr

/-- The executor before any event: empty queue, quit not closed. -/
def execInit {T : Type} : ExecState T :=
  { queue := [], quitClosed := false, forwarded := [], finished := 0,
    stopped := false }

/-- One iteration of the executor loop of `Park.start` (park.go lines
829-856).  On the quit branch the body is `return` (line 832-833): the
goroutine stops at once, forwarding nothing — the items still in `queue`
are abandoned.  On the item branch it runs `stageBody` and then forwards
the item to `next` when a next stage exists (`next != nil`, lines
850-852); the last stage of a lane is started with `next = nil`
(line 865), so its items are forwarded nowhere. -/
def execStep {T : Type} (id : Nat) (l : Int) (f : StageFn T)
    (hasNext : Bool) (s : ExecState T) (c : Choice) : ExecState T :=
  if s.stopped then s
  else
    match c with
    | Choice.quit => if s.quitClosed then { s with stopped := true } else s
    | Choice.item =>
        match s.queue with
        | [] => s
        | v :: rest =>
            let r := stageBody id l f v
            { s with
              queue := rest,
              forwarded := if hasNext then s.forwarded ++ [r.1] else s.forwarded,
              finished := s.finished + (if r.2 then 1 else 0) }

/-- Run the executor under a schedule of select choices. -/
def execRun {T : Type} (id : Nat) (l : Int) (f : StageFn T) (hasNext : Bool)
    (cs : List Choice) (s : ExecState T) : ExecState T :=
  cs.foldl (fun s1 c => execStep id l f hasNext s1 c) s

/-- The lane dispatcher `Park.newChannel` (park.go lines 859-886) under
the schedule in which it first forwards every input item into the first
executor queue (lines 880-882; the queue is buffered with capacity 10,
line 824, so this does not block for small inputs) and then observes the
closed input channel and closes every quit channel (lines 873-879). -/
def newChannelDispatch {T : Type} (input : List (Tour T)) (s : ExecState T) :
    ExecState T :=
  { s with queue := s.queue ++ input, quitClosed := true }

end ParkC

namespace fmap

/-- `MaxFunctions` of part_003 line 6. -/
def MaxFunctions : Nat := 1024

/-- `ErrOverflowed` of part_003 line 9. -/
def ErrOverflowed : Err := Err.new "Function Map Overflowed!"

/-- `Ftype` of part_003 lines 11-20. -/
inductive Ftype where
  | Func
  | Supplier
  | Consumer
  | Collector
  | ObjFunc
  | ResultFunc
deriving DecidableEq, Repr

/-- The Go `int16(n)` conversion of a non-negative length. -/
def int16cast (n : Nat) : Int :=
  ((n : Int) + 2 ^ 15) % 2 ^ 16 - 2 ^ 15

/-- `fidx` of part_003 lines 22-25: the function kind together with the
`int16` index of the function inside its slice. -/
structure fidx where
  t : Ftype
  i : Int
deriving DecidableEq, Repr

/-- `Fmap` of part_003 lines 27-35.  Go function results `(X, error)`
become `X × Option Err` and a bare `error` becomes `Option Err`. -/
structure Fmap (T R : Type) where
  funcs : List (T → R × Option Err)
  suppliers : List (Unit → T × Option Err)
  consumers : List (T → Option Err)
  collectors : List (T → R → T × Option Err)
  ofs : List (T → T × Option Err)
  rfs : List (R → R × Option Err)
  idxs : List fidx

/-- `Fmap.Map` of part_003 lines 37-44. -/
def Map {T R : Type} (m : Fmap T R) (f : T → R × Option Err) :
    Fmap T R × Option Err :=
  if MaxFunctions ≤ m.idxs.length then
    (m, some ErrOverflowed)
  else
    ({ m with
        idxs := m.idxs ++ [⟨Ftype.Func, int16cast m.funcs.length⟩]
        funcs := m.funcs ++ [f] }, none)

/-- `Fmap.Supply` of part_003 lines 46-53. -/
def Supply {T R : Type} (m : Fmap T R) (f : Unit → T × Option Err) :
    Fmap T R × Option Err :=
  if MaxFunctions ≤ m.idxs.length then
    (m, some ErrOverflowed)
  else
    ({ m with
        idxs := m.idxs ++ [⟨Ftype.Supplier, int16cast m.suppliers.length⟩]
        suppliers := m.suppliers ++ [f] }, none)

/-- `Fmap.Consume` of part_003 lines 55-62. -/
def Consume {T R : Type} (m : Fmap T R) (f : T → Option Err) :
    Fmap T R × Option Err :=
  if MaxFunctions ≤ m.idxs.length then
    (m, some ErrOverflowed)
  else
    ({ m with
        idxs := m.idxs ++ [⟨Ftype.Consumer, int16cast m.consumers.length⟩]
        consumers := m.consumers ++ [f] }, none)

/-- `Fmap.Collect` of part_003 lines 64-71. -/
def Collect {T R : Type} (m : Fmap T R) (f : T → R → T × Option Err) :
    Fmap T R × Option Err :=
  if MaxFunctions ≤ m.idxs.length then
    (m, some ErrOverflowed)
  else
    ({ m with
        idxs := m.idxs ++ [⟨Ftype.Collector, int16cast m.collectors.length⟩]
        collectors := m.collectors ++ [f] }, none)

/-- `Fmap.ObjOp` of part_003 lines 73-80. -/
def ObjOp {T R : Type} (m : Fmap T R) (f : T → T × Option Err) :
    Fmap T R × Option Err :=
  if MaxFunctions ≤ m.idxs.length then
    (m, some ErrOverflowed)
  else
    ({ m with
        idxs := m.idxs ++ [⟨Ftype.ObjFunc, int16cast m.ofs.length⟩]
        ofs := m.ofs ++ [f] }, none)

/-- `Fmap.ResultOp` of part_003 lines 82-89.  Note the source appends
the tag `ObjFunc`, not `ResultFunc`, to the index list (line 86). -/
def ResultOp {T R : Type} (m : Fmap T R) (f : R → R × Option Err) :
    Fmap T R × Option Err :=
  if MaxFunctions ≤ m.idxs.length then
    (m, some ErrOverflowed)
  else
    ({ m with
        idxs := m.idxs ++ [⟨Ftype.ObjFunc, int16cast m.rfs.length⟩]
        rfs := m.rfs ++ [f] }, none)

end fmap

/-! Concrete sample values used by witnesses and counterexamples. -/

/-- A stage function that leaves the tour unchanged and succeeds. -/
def fid : ParkC.StageFn Nat := fun _ v => (v, none)

/-- A stage function that bumps the payload and fails. -/
def fboom : ParkC.StageFn Nat := fun _ v => ({ v with t := v.t + 1 }, some (Err.new "boom"))

/-- A tour with no error. -/
def v5 : ParkC.Tour Nat := { uid := 1, err := none, t := 5 }

/-- A tour that already carries an error. -/
def vErr : ParkC.Tour Nat := { uid := 2, err := some (Err.new "boom"), t := 7 }

/-- Default options of the first revision (options.go lines 17-22). -/
def optsA0 : ParkA.ParkOptions Nat :=
  { concurrency := 1, timeoutMinutes := 5, channelTemplate := [], listeners := [] }

/-- A second options value, used to observe installation. -/
def optsA1 : ParkA.ParkOptions Nat := { optsA0 with concurrency := 2 }

/-- First-revision parks in each relevant status. -/
def pAInit : ParkA.Park Nat :=
  { options := optsA0, status := Status.ParkInitial, total := -1, finished := 0 }

/-- A first-revision park that is open. -/
def pAOpen : ParkA.Park Nat := { pAInit with status := Status.ParkOpen }

/-- A second-revision configuration. -/
def confB0 : ParkB.ParkConf Nat := { numChans := 1, funcs := [], listeners := [] }

/-- Another second-revision configuration, used to observe installation. -/
def confB1 : ParkB.ParkConf Nat := { numChans := 2, funcs := [], listeners := [] }

/-- Second-revision parks in each relevant status, with nonzero counters
so that clearing is observable. -/
def pBInit : ParkB.Park Nat :=
  { conf := confB0, status := Status.ParkInitial, total := 9, succeeds := 4, failures := 1 }

/-- A second-revision park that is open. -/
def pBOpen : ParkB.Park Nat := { pBInit with status := Status.ParkOpen }

/-- A second-revision park that is paused. -/
def pBPaused : ParkB.Park Nat := { pBInit with status := Status.ParkPaused }

/-- A second-revision park that is closed. -/
def pBClosed : ParkB.Park Nat := { pBInit with status := Status.ParkClosed }

/-- A second-revision park that is aborted. -/
def pBAborted : ParkB.Park Nat := { pBInit with status := Status.ParkAborted }

/-- A third-revision configuration. -/
def confC0 : ParkC.ParkConf Nat := { channels := 1, funcs := [], listeners := [] }

/-- Third-revision parks with nonzero runtime fields. -/
def qCPaused : ParkC.Park Nat :=
  { conf := confC0, status := Status.ParkPaused, total := 9, finished := 3, luid := 7, ongoing := [(1, v5)] }

/-- A third-revision park that is closed. -/
def qCClosed : ParkC.Park Nat := { qCPaused with status := Status.ParkClosed }

/-- A third-revision park that is aborted. -/
def qCAborted : ParkC.Park Nat := { qCPaused with status := Status.ParkAborted }

/-- A second-revision stage function value (never invoked by the
configuration code). -/
def nilStage : Nat → Option Err := fun _ => none

/-- A second-revision listener value. -/
def nilListener : ParkB.TourEvent Nat → Unit := fun _ => ()

/-- A listener value for the options.go revision. -/
def nilListenerD : ParkD.TourEvent Nat → Unit := fun _ => ()

/-- A configuration for the options.go revision. -/
def confD0 : ParkD.Conf Nat := { numChans := 1, funcs := [], listeners := [] }

/-- An empty function map. -/
def fmap0 : fmap.Fmap Nat Nat :=
  { funcs := [], suppliers := [], consumers := [], collectors := [], ofs := [], rfs := [], idxs := [] }

/-- A function map whose index list is full. -/
def fmapFull : fmap.Fmap Nat Nat :=
  { fmap0 with idxs := List.replicate 1024 ⟨fmap.Ftype.Func, 0⟩ }

/-- A sample mapping function for the registry. -/
def mapf0 : Nat → Nat × Option Err := fun n => (n, none)

/-- A sample supplier for the registry. -/
def supf0 : Unit → Nat × Option Err := fun _ => (0, none)

/-- A sample consumer for the registry. -/
def conf0 : Nat → Option Err := fun _ => none

/-- A sample collector for the registry. -/
def colf0 : Nat → Nat → Nat × Option Err := fun a _ => (a, none)

/-- A sample object operation for the registry. -/
def objf0 : Nat → Nat × Option Err := fun a => (a, none)

/-- A sample result operation for the registry. -/
def rsf0 : Nat → Nat × Option Err := fun r => (r, none)

/-! Helper lemmas about the third-revision stage executor. -/

/-- The stage body of an item that already carries an error: the stage
function is not invoked, so the result does not depend on it and the
tour is forwarded unchanged. -/
theorem ParkC.stageBody_hasError {T : Type} (id : Nat) (l : Int)
    (f : ParkC.StageFn T) (v : ParkC.Tour T) (h : ParkC.HasError v = true) :
    ParkC.stageBody id l f v = (v, decide (l ≤ (id : Int))) := by
  simp [ParkC.stageBody, h]

/-- A whole chain of stages leaves an already-failed item unchanged. -/
theorem ParkC.laneRunAux_hasError_fst {T : Type} (id : Nat) (l : Int)
    (funcs : List (ParkC.StageFn T)) (v : ParkC.Tour T)
    (h : ParkC.HasError v = true) :
    (ParkC.laneRunAux id l funcs v).1 = v := by
  induction funcs with
  | nil => rfl
  | cons f fs ih =>
      simp [ParkC.laneRunAux, ParkC.stageBody_hasError id l f v h]
      exact ih

/-- A whole chain of stages applied to an already-failed item is
independent of the stage functions: none of them is invoked. -/
theorem ParkC.laneRunAux_hasError_indep {T : Type} (id : Nat) (l : Int)
    (v : ParkC.Tour T) (h : ParkC.HasError v = true) :
    ∀ (funcs gs : List (ParkC.StageFn T)), funcs.length = gs.length →
      ParkC.laneRunAux id l funcs v = ParkC.laneRunAux id l gs v := by
  intro funcs
  induction funcs with
  | nil =>
      intro gs hg
      cases gs with
      | nil => rfl
      | cons g gs2 => simp at hg
  | cons f fs ih =>
      intro gs hg
      cases gs with
      | nil => simp at hg
      | cons g gs2 =>
          have hlen : fs.length = gs2.length := by
            simpa using hg
          simp [ParkC.laneRunAux, ParkC.stageBody_hasError id l f v h,
            ParkC.stageBody_hasError id l g v h, ih gs2 hlen]

/-- A stage function that reports an error leaves the item marked as
failed. -/
theorem ParkC.stageBody_reportError {T : Type} (id : Nat) (l : Int)
    (f : ParkC.StageFn T) (w : ParkC.Tour T) (e : Err)
    (hfe : (f id w).2 = some e) :
    ParkC.HasError (ParkC.stageBody id l f w).1 = true := by
  by_cases hw : ParkC.HasError w = true
  · simp [ParkC.stageBody_hasError id l f w hw, hw]
  · have hw2 : w.err.isSome = false := by
      simpa [ParkC.HasError] using hw
    simp [ParkC.stageBody, ParkC.HasError, hw2, hfe, ParkC.AddError]

/-! Claim theorems. -/

/-- Claim C1 (amended): when a stage executor receives its quit signal
(the quit channel is closed and the select picks that branch), it
returns immediately: it forwards nothing, leaves the finished counter
untouched, and abandons every item still in its queue — there is no
drain sink in the code.  Hence exactly-K terminal delivery under
graceful shutdown does not hold. -/
theorem claim_C1 {T : Type} (id : Nat) (l : Int) (f : ParkC.StageFn T)
    (hasNext : Bool) (s : ParkC.ExecState T)
    (h1 : s.stopped = false) (h2 : s.quitClosed = true) :
    ParkC.execStep id l f hasNext s ParkC.Choice.quit = { s with stopped := true } := by
  simp [ParkC.execStep, h1, h2]

/-- Witness for C1: a concretely evaluated quit step. -/
theorem claim_C1_witness :
    ParkC.execStep 0 1 fid true
      { queue := [v5], quitClosed := true, forwarded := [], finished := 0, stopped := false }
      ParkC.Choice.quit
    = { queue := [v5], quitClosed := true, forwarded := [], finished := 0, stopped := true } :=
  claim_C1 0 1 fid true
    { queue := [v5], quitClosed := true, forwarded := [], finished := 0, stopped := false }
    rfl rfl

/-- Claim C1 fails as stated: one lane, two stages, input of K = 1 item.
The lane dispatcher forwards the item into the first executor queue and,
on input close, closes the quit channels (park.go lines 873-879).  The
Go select of the executor may then pick the ready quit branch, and the
executor terminates having forwarded nothing: the queued item never
reaches any terminal disposition, so 0 items (not K = 1) reach the
sinks. -/
theorem claim_C1_counterexample :
    (ParkC.execRun 0 1 fid true [ParkC.Choice.quit]
      (ParkC.newChannelDispatch [v5] ParkC.execInit)).stopped = true
    ∧ (ParkC.execRun 0 1 fid true [ParkC.Choice.quit]
      (ParkC.newChannelDispatch [v5] ParkC.execInit)).forwarded = []
    ∧ (ParkC.execRun 0 1 fid true [ParkC.Choice.quit]
      (ParkC.newChannelDispatch [v5] ParkC.execInit)).queue = [v5] :=
  ⟨rfl, rfl, rfl⟩

/-- Claim C2 (amended): `Start` of the first revision performs no status
check at all: for every pipeline and input it returns nil error, spawns
one channel goroutine per configured concurrency, and returns the
pipeline state — status included — unchanged; it never returns an
invalid-state error and never transitions the status to Open. -/
theorem claim_C2 {T : Type} (p : ParkA.Park T) (data : List T) :
    (ParkA.Start p data).2.2 = none
    ∧ (ParkA.Start p data).1 = p
    ∧ (ParkA.Start p data).2.1 = List.range p.options.concurrency.toNat :=
  ⟨rfl, rfl, rfl⟩

/-- Claim C2 fails as stated: `Start` on an Open (hence non-Initial)
pipeline returns nil instead of an invalid-state error, and `Start` on
an Initial pipeline leaves the status Initial instead of transitioning
it to Open. -/
theorem claim_C2_counterexample :
    (ParkA.Start pAOpen []).2.2 = none
    ∧ (ParkA.Start pAInit []).1.status = Status.ParkInitial :=
  ⟨rfl, rfl⟩

/-- Claim C3 evaluated at the failing inputs: with one lane (channel id
0) and two always-succeeding stages, the item completes the last stage
without error yet the finished counter is incremented 0 times (and the
listeners notified 0 times); with channel id 2 and three stages the same
item is counted 3 times.  The guard at park.go line 844 compares the
channel id, not the stage index, against `len(funcs) - 1`. -/
theorem claim_C3_theorem :
    (ParkC.laneRun 0 [fid, fid] v5).2 = 0
    ∧ ParkC.HasError (ParkC.laneRun 0 [fid, fid] v5).1 = false
    ∧ (ParkC.laneRun 2 [fid, fid, fid] v5).2 = 3 :=
  ⟨rfl, rfl, rfl⟩

/-- Claim C4: an item that already carries an error short-circuits
every later stage: the stage body forwards the item unchanged and its
result is the same for every stage function (the function is never
invoked), and likewise for a whole chain of stages; moreover a stage
function that reports an error leaves the item marked as failed, so the
short-circuit applies to all later stages. -/
theorem claim_C4 {T : Type} (id : Nat) (l : Int) (f g : ParkC.StageFn T)
    (v : ParkC.Tour T) (h : ParkC.HasError v = true)
    (funcs gs : List (ParkC.StageFn T)) (hlen : funcs.length = gs.length)
    (w : ParkC.Tour T) (e : Err) (hfe : (f id w).2 = some e) :
    (ParkC.stageBody id l f v).1 = v
    ∧ ParkC.stageBody id l f v = ParkC.stageBody id l g v
    ∧ (ParkC.laneRunAux id l funcs v).1 = v
    ∧ ParkC.laneRunAux id l funcs v = ParkC.laneRunAux id l gs v
    ∧ ParkC.HasError (ParkC.stageBody id l f w).1 = true := by
  refine ⟨?_, ?_, ?_, ?_, ?_⟩
  · rw [ParkC.stageBody_hasError id l f v h]
  · rw [ParkC.stageBody_hasError id l f v h, ParkC.stageBody_hasError id l g v h]
  · exact ParkC.laneRunAux_hasError_fst id l funcs v h
  · exact ParkC.laneRunAux_hasError_indep id l v h funcs gs hlen
  · exact ParkC.stageBody_reportError id l f w e hfe

/-- Witness for C4: concrete failed item, one-stage chains. -/
theorem claim_C4_witness :
    ParkC.HasError vErr = true
    ∧ (ParkC.laneRunAux 0 0 [fboom] vErr).1 = vErr
    ∧ ParkC.laneRunAux 0 0 [fboom] vErr = ParkC.laneRunAux 0 0 [fid] vErr
    ∧ ParkC.HasError (ParkC.stageBody 0 0 fboom v5).1 = true := by
  have h := claim_C4 0 0 fboom fid vErr rfl [fboom] [fid] rfl v5 (Err.new "boom") rfl
  exact ⟨rfl, h.2.2.1, h.2.2.2.1, h.2.2.2.2⟩

/-- Claim C5: `SetConf` (second revision) and `SetOptions` (first
revision) reject with an invalid-state error and leave the pipeline —
its stored configuration included — unchanged whenever the status is not
Initial, and install the given configuration returning nil when the
status is Initial. -/
theorem claim_C5 {T : Type} (p : ParkB.Park T) (c : ParkB.ParkConf T)
    (q : ParkA.Park T) (o : ParkA.ParkOptions T) :
    (p.status ≠ Status.ParkInitial →
      ParkB.SetConf p c = (p, some (Err.wrap ("desired is Initial, actual : " ++
        toString (statusCode p.status)) ErrState)))
    ∧ (p.status = Status.ParkInitial →
      ParkB.SetConf p c = ({ p with conf := c }, none))
    ∧ (q.status ≠ Status.ParkInitial →
      ParkA.SetOptions q o = (q, some (Err.new "Invalid State!")))
    ∧ (q.status = Status.ParkInitial →
      ParkA.SetOptions q o = ({ q with options := o }, none)) := by
  refine ⟨?_, ?_, ?_, ?_⟩ <;> intro h
  · simp [ParkB.SetConf, h]
  · simp [ParkB.SetConf, h]
  · simp [ParkA.SetOptions, h]
  · simp [ParkA.SetOptions, h]

/-- Witness for C5: evaluation at open and initial parks. -/
theorem claim_C5_witness :
    ParkB.SetConf pBOpen confB1
      = (pBOpen, some (Err.wrap "desired is Initial, actual : 2" ErrState))
    ∧ ParkB.SetConf pBInit confB1 = ({ pBInit with conf := confB1 }, none)
    ∧ ParkA.SetOptions pAOpen optsA1 = (pAOpen, some (Err.new "Invalid State!"))
    ∧ ParkA.SetOptions pAInit optsA1 = ({ pAInit with options := optsA1 }, none) := by
  have hOpen := claim_C5 pBOpen confB1 pAOpen optsA1
  have hInit := claim_C5 pBInit confB1 pAInit optsA1
  exact ⟨hOpen.1 (by decide), hInit.2.1 rfl, hOpen.2.2.1 (by decide), hInit.2.2.2 rfl⟩

/-- Claim C6 (amended): in the second revision, `Reset` succeeds from
Paused and Aborted (and from Open after performing `Cancel` first),
clearing the total to -1 and the succeeded counter to 0 and returning to
Initial, but FAILS from Closed with a wrapped invalid-state error; in
the third revision `Reset` also succeeds from Closed, clearing total to
-1 and finished to 0. -/
theorem claim_C6 {T : Type} (p : ParkB.Park T) (q : ParkC.Park T) :
    ((p.status = Status.ParkOpen ∨ p.status = Status.ParkPaused) →
      ParkB.Reset p = ({ (ParkB.Cancel p).1 with status := Status.ParkInitial, total := -1, succeeds := 0 }, none))
    ∧ (p.status = Status.ParkAborted →
      ParkB.Reset p = ({ p with status := Status.ParkInitial, total := -1, succeeds := 0 }, none))
    ∧ (p.status = Status.ParkClosed →
      ParkB.Reset p = (p, some (Err.wrap "can not reset park when it's closed" ErrState)))
    ∧ ((q.status = Status.ParkPaused ∨ q.status = Status.ParkClosed ∨ q.status = Status.ParkAborted) →
      ParkC.Reset q = ({ q with status := Status.ParkInitial, total := -1, finished := 0, luid := 0, ongoing := [] }, none)) := by
  refine ⟨?_, ?_, ?_, ?_⟩
  · rintro (h | h) <;> simp [ParkB.Reset, ParkB.Cancel, h]
  · intro h
    simp [ParkB.Reset, h]
  · intro h
    simp [ParkB.Reset, h]
  · rintro (h | h | h) <;> simp [ParkC.Reset, ParkC.Cancel, h]

/-- Witness for C6: evaluation at concrete parks in every cited
status. -/
theorem claim_C6_witness :
    ParkB.Reset pBPaused = ({ pBPaused with status := Status.ParkInitial, total := -1, succeeds := 0 }, none)
    ∧ ParkB.Reset pBOpen = ({ pBOpen with status := Status.ParkInitial, total := -1, succeeds := 0 }, none)
    ∧ ParkB.Reset pBAborted = ({ pBAborted with status := Status.ParkInitial, total := -1, succeeds := 0 }, none)
    ∧ ParkB.Reset pBClosed = (pBClosed, some (Err.wrap "can not reset park when it's closed" ErrState))
    ∧ ParkC.Reset qCPaused = ({ qCPaused with status := Status.ParkInitial, total := -1, finished := 0, luid := 0, ongoing := [] }, none)
    ∧ ParkC.Reset qCClosed = ({ qCClosed with status := Status.ParkInitial, total := -1, finished := 0, luid := 0, ongoing := [] }, none)
    ∧ ParkC.Reset qCAborted = ({ qCAborted with status := Status.ParkInitial, total := -1, finished := 0, luid := 0, ongoing := [] }, none) := by
  have hP := claim_C6 pBPaused qCPaused
  have hO := claim_C6 pBOpen qCClosed
  have hA := claim_C6 pBAborted qCAborted
  have hC := claim_C6 pBClosed qCPaused
  exact ⟨hP.1 (Or.inr rfl), hO.1 (Or.inl rfl), hA.2.1 rfl, hC.2.2.1 rfl,
    hP.2.2.2 (Or.inl rfl), hO.2.2.2 (Or.inr (Or.inl rfl)),
    hA.2.2.2 (Or.inr (Or.inr rfl))⟩

/-- Claim C6 fails as stated for the second revision: `Reset` from
Closed returns a wrapped invalid-state error and leaves the park
unchanged instead of succeeding. -/
theorem claim_C6_counterexample :
    ParkB.Reset pBClosed
      = (pBClosed, some (Err.wrap "can not reset park when it's closed" ErrState)) :=
  rfl

/-- Claim C7: each configuration option function rejects a value beyond
its ceiling — more than `MaxChannels` lanes, more than `MaxFunctions`
stage functions, more than `MaxListeners` listeners — with the
capacity error of its revision (`ErrLimited` in park.go, `ErrArg` in
options.go), and returns the previous configuration unchanged. -/
theorem claim_C7 {T : Type} (conf : ParkB.ParkConf T) (confd : ParkD.Conf T)
    (v : Int) (fs : List (T → Option Err))
    (ls : List (ParkB.TourEvent T → Unit))
    (lsd : List (ParkD.TourEvent T → Unit)) :
    (MaxChannels < v → ParkB.WithNumChannels v conf = (conf, some ErrLimited))
    ∧ (MaxFunctions < fs.length → ParkB.WithFuncs fs conf = (conf, some ErrLimited))
    ∧ (MaxListeners < ls.length → ParkB.WithListeners ls conf = (conf, some ErrLimited))
    ∧ (MaxChannels < v → ParkD.WithNumChannels v confd = (confd, some ErrArg))
    ∧ (MaxFunctions < fs.length → ParkD.WithFuncs fs confd = (confd, some ErrArg))
    ∧ (MaxListeners < lsd.length → ParkD.WithListeners lsd confd = (confd, some ErrArg)) := by
  refine ⟨?_, ?_, ?_, ?_, ?_, ?_⟩ <;> intro h
  · simp [ParkB.WithNumChannels, if_pos (Or.inl h)]
  · simp [ParkB.WithFuncs, if_pos h]
  · simp [ParkB.WithListeners, if_pos h]
  · simp [ParkD.WithNumChannels, if_pos (Or.inl h)]
  · simp [ParkD.WithFuncs, if_pos h]
  · simp [ParkD.WithListeners, if_pos h]

/-- Witness for C7: concrete over-limit values for every ceiling. -/
theorem claim_C7_witness :
    ParkB.WithNumChannels 257 confB0 = (confB0, some ErrLimited)
    ∧ ParkB.WithFuncs (List.replicate 65 nilStage) confB0 = (confB0, some ErrLimited)
    ∧ ParkB.WithListeners (List.replicate 257 nilListener) confB0 = (confB0, some ErrLimited)
    ∧ ParkD.WithNumChannels 257 confD0 = (confD0, some ErrArg)
    ∧ ParkD.WithFuncs (List.replicate 65 nilStage) confD0 = (confD0, some ErrArg)
    ∧ ParkD.WithListeners (List.replicate 257 nilListenerD) confD0 = (confD0, some ErrArg) := by
  have h := claim_C7 confB0 confD0 257 (List.replicate 65 nilStage)
    (List.replicate 257 nilListener) (List.replicate 257 nilListenerD)
  exact ⟨h.1 (by decide), h.2.1 (by norm_num [MaxFunctions]),
    h.2.2.1 (by norm_num [MaxListeners]), h.2.2.2.1 (by decide),
    h.2.2.2.2.1 (by norm_num [MaxFunctions]),
    h.2.2.2.2.2 (by norm_num [MaxListeners])⟩

/-- Claim C8 (amended): `WithNumChannels` rejects only a lane count
above `MaxChannels` or below 0 — every count in 0..MaxChannels,
INCLUDING 0, is accepted and installed with a nil error; and
`WithConcurrency` of the first options revision performs no validation
at all, installing any value. -/
theorem claim_C8 {T : Type} (conf : ParkB.ParkConf T) (v : Int)
    (opts : ParkA.ParkOptions T) (w : Int) :
    (0 ≤ v → v ≤ MaxChannels →
      ParkB.WithNumChannels v conf = ({ conf with numChans := v }, none))
    ∧ ((MaxChannels < v ∨ v < 0) →
      ParkB.WithNumChannels v conf = (conf, some ErrLimited))
    ∧ ParkA.WithConcurrency w opts = { opts with concurrency := w } := by
  refine ⟨?_, ?_, rfl⟩
  · intro h0 h1
    rw [ParkB.WithNumChannels, if_neg]
    rintro (h | h) <;> omega
  · intro h
    rw [ParkB.WithNumChannels, if_pos h]

/-- Witness for C8: acceptance inside and rejection outside the
range. -/
theorem claim_C8_witness :
    ParkB.WithNumChannels 5 confB0 = ({ confB0 with numChans := 5 }, none)
    ∧ ParkB.WithNumChannels 300 confB0 = (confB0, some ErrLimited) := by
  have h5 := claim_C8 confB0 5 optsA0 1
  have h300 := claim_C8 confB0 300 optsA0 1
  exact ⟨h5.1 (by decide) (by decide), h300.2.1 (Or.inl (by decide))⟩

/-- Claim C8 fails as stated: a lane count of 0 is outside the claimed
range 1..MaxLanes yet `WithNumChannels 0` succeeds with a nil error and
installs 0, and `WithConcurrency` even accepts -5 with no error
reported. -/
theorem claim_C8_counterexample :
    ParkB.WithNumChannels 0 confB0 = ({ confB0 with numChans := 0 }, none)
    ∧ ParkA.WithConcurrency (-5) optsA0 = { optsA0 with concurrency := -5 } :=
  ⟨rfl, rfl⟩

/-- Claim C9 (amended): `Cancel` always returns a nil error and never
blocks, but only the second revision (park.go lines 448-451) sets the
status to Aborted; the first revision (park.go lines 111-113) returns
nil without touching the pipeline state at all. -/
theorem claim_C9 {T : Type} (p : ParkB.Park T) (q : ParkA.Park T) :
    ParkB.Cancel p = ({ p with status := Status.ParkAborted }, none)
    ∧ ParkA.Cancel q = (q, none) :=
  ⟨rfl, rfl⟩

/-- Claim C9 fails as stated: in the first revision, `Cancel` on an
open pipeline returns nil and leaves the status Open — it does not
transition to Aborted. -/
theorem claim_C9_counterexample :
    (ParkA.Cancel pAOpen).2 = none
    ∧ (ParkA.Cancel pAOpen).1.status = Status.ParkOpen
    ∧ (ParkA.Cancel pAOpen).1.status ≠ Status.ParkAborted :=
  ⟨rfl, rfl, by decide⟩

/-- Claim C10: every registration operation of the function map
(`Map`, `Supply`, `Consume`, `Collect`, `ObjOp`, `ResultOp`) guards the
index list against `MaxFunctions` (1024): when the list is already full
it returns `ErrOverflowed` and leaves the map — every internal slice
included — unchanged; otherwise it appends exactly one function to its
own slice and exactly one entry to the index list, leaves all other
slices unchanged, and returns nil; consequently each operation preserves
the invariant that the index list holds at most 1024 entries. -/
theorem claim_C10 {T R : Type} (m : fmap.Fmap T R)
    (f : T → R × Option Err) (fs : Unit → T × Option Err)
    (fc : T → Option Err) (fl : T → R → T × Option Err)
    (fo : T → T × Option Err) (fr : R → R × Option Err) :
    (fmap.MaxFunctions ≤ m.idxs.length →
      fmap.Map m f = (m, some fmap.ErrOverflowed)
      ∧ fmap.Supply m fs = (m, some fmap.ErrOverflowed)
      ∧ fmap.Consume m fc = (m, some fmap.ErrOverflowed)
      ∧ fmap.Collect m fl = (m, some fmap.ErrOverflowed)
      ∧ fmap.ObjOp m fo = (m, some fmap.ErrOverflowed)
      ∧ fmap.ResultOp m fr = (m, some fmap.ErrOverflowed))
    ∧ (m.idxs.length < fmap.MaxFunctions →
      fmap.Map m f = ({ m with idxs := m.idxs ++ [⟨fmap.Ftype.Func, fmap.int16cast m.funcs.length⟩], funcs := m.funcs ++ [f] }, none)
      ∧ fmap.Supply m fs = ({ m with idxs := m.idxs ++ [⟨fmap.Ftype.Supplier, fmap.int16cast m.suppliers.length⟩], suppliers := m.suppliers ++ [fs] }, none)
      ∧ fmap.Consume m fc = ({ m with idxs := m.idxs ++ [⟨fmap.Ftype.Consumer, fmap.int16cast m.consumers.length⟩], consumers := m.consumers ++ [fc] }, none)
      ∧ fmap.Collect m fl = ({ m with idxs := m.idxs ++ [⟨fmap.Ftype.Collector, fmap.int16cast m.collectors.length⟩], collectors := m.collectors ++ [fl] }, none)
      ∧ fmap.ObjOp m fo = ({ m with idxs := m.idxs ++ [⟨fmap.Ftype.ObjFunc, fmap.int16cast m.ofs.length⟩], ofs := m.ofs ++ [fo] }, none)
      ∧ fmap.ResultOp m fr = ({ m with idxs := m.idxs ++ [⟨fmap.Ftype.ObjFunc, fmap.int16cast m.rfs.length⟩], rfs := m.rfs ++ [fr] }, none))
    ∧ (m.idxs.length ≤ fmap.MaxFunctions →
      (fmap.Map m f).1.idxs.length ≤ fmap.MaxFunctions
      ∧ (fmap.Supply m fs).1.idxs.length ≤ fmap.MaxFunctions
      ∧ (fmap.Consume m fc).1.idxs.length ≤ fmap.MaxFunctions
      ∧ (fmap.Collect m fl).1.idxs.length ≤ fmap.MaxFunctions
      ∧ (fmap.ObjOp m fo).1.idxs.length ≤ fmap.MaxFunctions
      ∧ (fmap.ResultOp m fr).1.idxs.length ≤ fmap.MaxFunctions) := by
  refine ⟨?_, ?_, ?_⟩
  · intro h
    refine ⟨?_, ?_, ?_, ?_, ?_, ?_⟩ <;>
      simp [fmap.Map, fmap.Supply, fmap.Consume, fmap.Collect, fmap.ObjOp,
        fmap.ResultOp, if_pos h]
  · intro h
    have h2 : ¬ fmap.MaxFunctions ≤ m.idxs.length := Nat.not_le.mpr h
    refine ⟨?_, ?_, ?_, ?_, ?_, ?_⟩ <;>
      simp [fmap.Map, fmap.Supply, fmap.Consume, fmap.Collect, fmap.ObjOp,
        fmap.ResultOp, if_neg h2]
  · intro h
    by_cases hf : fmap.MaxFunctions ≤ m.idxs.length
    · refine ⟨?_, ?_, ?_, ?_, ?_, ?_⟩ <;>
        simp [fmap.Map, fmap.Supply, fmap.Consume, fmap.Collect, fmap.ObjOp,
          fmap.ResultOp, if_pos hf, h]
    · have h2 : m.idxs.length < fmap.MaxFunctions := Nat.not_le.mp hf
      refine ⟨?_, ?_, ?_, ?_, ?_, ?_⟩ <;>
        · simp [fmap.Map, fmap.Supply, fmap.Consume, fmap.Collect, fmap.ObjOp,
            fmap.ResultOp, if_neg hf]
          omega

/-- Witness for C10: concrete evaluation at an empty map and at a full
map, both branches of every operation that the witness exercises. -/
theorem claim_C10_witness :
    (fmap.Map fmap0 mapf0).2 = none
    ∧ (fmap.Map fmap0 mapf0).1.idxs.length = 1
    ∧ (fmap.Map fmap0 mapf0).1.funcs.length = 1
    ∧ (fmap.Map fmapFull mapf0).2 = some fmap.ErrOverflowed
    ∧ (fmap.Supply fmapFull supf0).2 = some fmap.ErrOverflowed
    ∧ (fmap.Consume fmap0 conf0).2 = none
    ∧ (fmap.Consume fmapFull conf0).2 = some fmap.ErrOverflowed
    ∧ (fmap.Collect fmapFull colf0).2 = some fmap.ErrOverflowed
    ∧ (fmap.ObjOp fmapFull objf0).2 = some fmap.ErrOverflowed
    ∧ (fmap.ResultOp fmapFull rsf0).2 = some fmap.ErrOverflowed := by
  have hFull := claim_C10 fmapFull mapf0 supf0 conf0 colf0 objf0 rsf0
  have hEmpty := claim_C10 fmap0 mapf0 supf0 conf0 colf0 objf0 rsf0
  have hidx : fmapFull.idxs = List.replicate 1024 ⟨fmap.Ftype.Func, 0⟩ := rfl
  have hfullLen : fmap.MaxFunctions ≤ fmapFull.idxs.length := by
    rw [hidx, List.length_replicate]
    norm_num [fmap.MaxFunctions]
  have hemptyLen : fmap0.idxs.length < fmap.MaxFunctions := by
    norm_num [fmap0, fmap.MaxFunctions]
  obtain ⟨hm, hs, hc, hl, ho, hr⟩ := hFull.1 hfullLen
  obtain ⟨em, _, ec, _, _, _⟩ := hEmpty.2.1 hemptyLen
  refine ⟨by simp [em], by rw [em]; simp [fmap0], by rw [em]; simp [fmap0],
    by simp [hm], by simp [hs], by simp [ec], by simp [hc], by simp [hl],
    by simp [ho], by simp [hr]⟩
